import Mathlib

/-
Verification of the vega-assistant data-node provisioning code.

Source files embedded here:
  * network/mainnet.go       — NetworkConfig, MainnetConfig, DataNodeGenerator
                               (Run, copyBinaries, prepareVisorHome, updateConfigs)
  * generator/ui.go          — AskSQLCredentials, printSummary

Modelling conventions:
  * Filesystem paths are modelled as lists of path components (FsPath);
    Go's filepath.Join(a, b) becomes list append of one component.
  * Go maps built from literals and then mutated by assignment are modelled
    as association lists in the source's textual order; assignment m[k] = v
    becomes mapSet (overwrite in place if the key exists, append otherwise),
    matching Go map semantics up to iteration order.
  * strconv.Atoi is modelled by atoi (optional sign, decimal digits,
    int64 range check).
  * External effects (logging, actual file copies, the TOML writer,
    template rendering, binary downloads) are abstracted: fallible external
    steps become Except-valued parameters, and the filesystem operations a
    function performs are returned as an explicit trace.
-/

/-- Startup mode of the data node. The spec calls StartFromBlock0 "FromGenesis"
and StartFromNetworkHistory "FromNetworkHistory". -/
inductive StartupMode
  | StartFromBlock0
  | StartFromNetworkHistory
  deriving DecidableEq, Repr

/-- types.SQLCredentials: PostgreSQL connection data collected by the wizard. -/
structure SQLCredentials where
  Host : String
  Port : Int
  User : String
  Pass : String
  DatabaseName : String
  deriving DecidableEq, Repr

/-- The latest network-history snapshot: a block height (kept as the string the
network returned) and a block hash. -/
structure Snapshot where
  BlockHeight : String
  BlockHash : String
  deriving DecidableEq, Repr

/-- A filesystem path, modelled as its list of components.
filepath.Join(p, c) is modelled as p ++ [c]. -/
abbrev FsPath := List String

/-- filepath.Join of a path and one extra component. -/
def joinP (p : FsPath) (c : String) : FsPath := p ++ [c]

/-- GenerateSettings: the settings record produced by the setup wizard and
consumed by DataNodeGenerator (fields as used in generator/ui.go and
network/mainnet.go). -/
structure GenerateSettings where
  Mode : StartupMode
  VisorHome : FsPath
  VegaHome : FsPath
  TendermintHome : FsPath
  DataNodeHome : FsPath
  SQLCredentials : SQLCredentials
  MainnetVersion : String
  MainnetChainId : String
  LatestSnapshot : Snapshot
  deriving DecidableEq, Repr

/-- network.NetworkConfig from network/mainnet.go. -/
structure NetworkConfig where
  GenesisVersion : String
  Repository : String
  GenesisURL : String
  DataNodesRESTUrls : List String
  TendermintSeeds : List String
  TendermintRPCServers : List String
  BootstrapPeers : List String
  deriving DecidableEq, Repr

/-- network.MainnetConfig from network/mainnet.go. -/
def MainnetConfig : NetworkConfig :=
  { GenesisVersion := "v0.72.14"
    Repository := "vegaprotocol/vega"
    GenesisURL := "https://raw.githubusercontent.com/vegaprotocol/networks/master/mainnet1/genesis.json"
    DataNodesRESTUrls := ["https://api0.vega.community", "https://api1.vega.community",
      "https://api2.vega.community", "https://api3.vega.community"]
    TendermintSeeds := ["b0db58f5651c85385f588bd5238b42bedbe57073@13.125.55.240:26656",
      "abe207dae9367995526812d42207aeab73fd6418@18.158.4.175:26656",
      "198ecd046ebb9da0fc5a3270ee9a1aeef57a76ff@144.76.105.240:26656",
      "211e435c2162aedb6d687409d5d7f67399d198a9@65.21.60.252:26656",
      "c5b11e1d819115c4f3974d14f76269e802f3417b@34.88.191.54:26656"]
    TendermintRPCServers := ["api0.vega.community:26657", "api1.vega.community:26657",
      "api2.vega.community:26657", "api3.vega.community:26657"]
    BootstrapPeers := ["/dns/api1.vega.community/tcp/4001/ipfs/12D3KooWDZrusS1p2XyJDbCaWkVDCk2wJaKi6tNb4bjgSHo9yi5Q",
      "/dns/api2.vega.community/tcp/4001/ipfs/12D3KooWEH9pQd6P7RgNEpwbRyavWcwrAdiy9etivXqQZzd7Jkrh",
      "/dns/api3.vega.community/tcp/4001/ipfs/12D3KooWHSoYzEqSfUWEXfFbSnmRhWcP2WgZG2GRT8fzZzio5BTY"] }

/-- A value placed into one of the config maps (Go map[string]interface\x7b\x7d
values used in updateConfigs: strings, ints, floats, bools, string lists). -/
inductive ConfigValue
  | str (s : String)
  | int (n : Int)
  | float (q : Rat)
  | bool (b : Bool)
  | strList (l : List String)
  deriving DecidableEq, Repr

/-- A Go map[string]interface\x7b\x7d, modelled as an association list in the
source's textual literal order. -/
abbrev ConfigMap := List (String × ConfigValue)

/-- Go map assignment m[k] = v: overwrite in place when the key is present,
append otherwise. -/
def mapSet (m : ConfigMap) (k : String) (v : ConfigValue) : ConfigMap :=
  if m.any (fun p => p.1 = k) then
    m.map (fun p => if p.1 = k then (k, v) else p)
  else
    m ++ [(k, v)]

/-- Lookup of a key in a config map. -/
def mapLookup (m : ConfigMap) (k : String) : Option ConfigValue :=
  (m.find? (fun p => p.1 = k)).map (fun p => p.2)

/-- strconv.Atoi: optional single leading sign, one or more ASCII decimal
digits, value within the int64 range; anything else is an error (none). -/
def atoi (s : String) : Option Int :=
  let signDigits : Int × List Char :=
    match s.data with
    | '+' :: rest => (1, rest)
    | '-' :: rest => (-1, rest)
    | rest => (1, rest)
  let sign := signDigits.1
  let digits := signDigits.2
  if digits.isEmpty then none
  else if digits.all (fun c => c.isDigit) then
    let n : Nat := digits.foldl (fun acc c => acc * 10 + (c.toNat - '0'.toNat)) 0
    let v : Int := sign * (n : Int)
    if v < -(2 ^ 63) ∨ (2 ^ 63 - 1 : Int) < v then none else some v
  else none

/-- Splits a character list around every occurrence of sep. Helper for
goSplit; the result list is always non-empty. -/
def splitOnCharAux (sep : Char) : List Char → List (List Char)
  | [] => [[]]
  | c :: rest =>
    match splitOnCharAux sep rest with
    | [] => [[]]
    | g :: gs => if c = sep then [] :: g :: gs else (c :: g) :: gs

/-- Go strings.Split(s, sep) for a single-character separator: splits around
every occurrence of sep; Split("", sep) = [""]. -/
def goSplit (sep : Char) (s : String) : List String :=
  (splitOnCharAux sep s.data).map String.mk

/-- Go strings.ToLower restricted to ASCII (the only inputs compared here are
"Yes"/"No" style answers). -/
def goToLower (s : String) : String := String.mk (s.data.map Char.toLower)

/-- DataNodeGenerator from network/mainnet.go. -/
structure DataNodeGenerator where
  userSettings : GenerateSettings
  networkConfig : NetworkConfig
  deriving DecidableEq, Repr

/-- The four config maps assembled by DataNodeGenerator.updateConfigs, before
being written to the four TOML files. -/
structure UpdateConfigsResult where
  dataNodeConfig : ConfigMap
  vegaConfig : ConfigMap
  tendermintConfig : ConfigMap
  vegavisorConfig : ConfigMap
  deriving DecidableEq, Repr

/-- The dataNodeConfig map literal inside updateConfigs. -/
def dataNodeConfigBase (s : GenerateSettings) (cfg : NetworkConfig) : ConfigMap :=
  [("SQLStore.ConnectionConfig.Host", ConfigValue.str s.SQLCredentials.Host),
   ("SQLStore.ConnectionConfig.Port", ConfigValue.int s.SQLCredentials.Port),
   ("SQLStore.ConnectionConfig.Username", ConfigValue.str s.SQLCredentials.User),
   ("SQLStore.ConnectionConfig.Password", ConfigValue.str s.SQLCredentials.Pass),
   ("SQLStore.ConnectionConfig.Database", ConfigValue.str s.SQLCredentials.DatabaseName),
   ("SQLStore.WipeOnStartup", ConfigValue.bool true),
   ("NetworkHistory.Store.BootstrapPeers", ConfigValue.strList cfg.BootstrapPeers),
   ("NetworkHistory.Initialise.Timeout", ConfigValue.str "4h"),
   ("API.RateLimit.Rate", ConfigValue.float 300),
   ("API.RateLimit.Burst", ConfigValue.int 1000)]

/-- The vegaConfig map literal inside updateConfigs. -/
def vegaConfigBase : ConfigMap :=
  [("Snapshot.StartHeight", ConfigValue.int (-1)),
   ("Broker.Socket.Enabled", ConfigValue.bool true),
   ("Broker.Socket.DialTimeout", ConfigValue.str "4h")]

/-- The tendermintConfig map literal inside updateConfigs. Note that
"statesync.rpc_servers" is part of this unconditional literal. -/
def tendermintConfigBase (cfg : NetworkConfig) : ConfigMap :=
  [("p2p.seeds", ConfigValue.str (String.intercalate "," cfg.TendermintSeeds)),
   ("pex", ConfigValue.bool true),
   ("statesync.enable", ConfigValue.bool false),
   ("statesync.rpc_servers", ConfigValue.str (String.intercalate "," cfg.TendermintRPCServers)),
   ("statesync.trust_period", ConfigValue.str "672h0m0s")]

/-- The vegavisorConfig map literal inside updateConfigs; owner and repoName
are Split(Repository, "/")[0] and [1]. -/
def vegavisorConfigBase (owner repoName goos goarch : String) : ConfigMap :=
  [("maxNumberOfFirstConnectionRetries", ConfigValue.int 43200),
   ("autoInstall.enabled", ConfigValue.bool true),
   ("autoInstall.repositoryOwner", ConfigValue.str owner),
   ("autoInstall.repository", ConfigValue.str repoName),
   ("autoInstall.asset.name", ConfigValue.str ("vega-" ++ goos ++ "-" ++ goarch ++ ".zip")),
   ("autoInstall.asset.binaryName", ConfigValue.str "vega")]

/-- DataNodeGenerator.updateConfigs (network/mainnet.go). Parameters goos and
goarch stand for runtime.GOOS and runtime.GOARCH. The actual writes to the
four TOML files (utils.UpdateConfig) are external; this returns the key/value
sets the function assembles and would write. Go's
strings.Split(Repository, "/") (modelled by goSplit) indexed at [0] and [1] panics when the second
component is missing; that panic is modelled as the error branch of the
outer match. -/
def updateConfigs (gen : DataNodeGenerator) (goos goarch : String) :
    Except String UpdateConfigsResult :=
  match goSplit '/' gen.networkConfig.Repository with
  | owner :: repoName :: _ =>
    let s := gen.userSettings
    let dataNodeConfig := dataNodeConfigBase s gen.networkConfig
    let vegaConfig := vegaConfigBase
    let tendermintConfig := tendermintConfigBase gen.networkConfig
    let vegavisorConfig := vegavisorConfigBase owner repoName goos goarch
    if s.Mode = StartupMode.StartFromNetworkHistory then
      if s.LatestSnapshot.BlockHash = "" then
        Except.error "cannot start vega from the network-history when latest snapshot is empty"
      else
        match atoi s.LatestSnapshot.BlockHeight with
        | none => Except.error "failed to convert trust block height from string to int"
        | some trustHeight =>
          Except.ok
            { dataNodeConfig :=
                mapSet dataNodeConfig "AutoInitialiseFromNetworkHistory" (ConfigValue.bool true)
              vegaConfig := vegaConfig
              tendermintConfig :=
                mapSet
                  (mapSet
                    (mapSet tendermintConfig "statesync.enable" (ConfigValue.bool true))
                    "statesync.trust_height" (ConfigValue.int trustHeight))
                  "statesync.trust_hash" (ConfigValue.str s.LatestSnapshot.BlockHash)
              vegavisorConfig := vegavisorConfig }
    else
      Except.ok
        { dataNodeConfig := dataNodeConfig
          vegaConfig := vegaConfig
          tendermintConfig := tendermintConfig
          vegavisorConfig := vegavisorConfig }
  | _ => Except.error "panic: runtime error: index out of range"

/-- A filesystem operation performed by copyBinaries. -/
inductive FsOp
  | copyFile (src dst : FsPath)
  | symlink (oldname newname : FsPath)
  deriving DecidableEq, Repr

/-- DataNodeGenerator.copyBinaries (network/mainnet.go). existingPaths is the
set of paths that already exist on disk when the os.Symlink call runs;
os.Symlink fails when the new name already exists, and that is the only
fallible operation modelled (utils.CopyFile is external and assumed to
succeed). Returns the filesystem operations performed and the result. -/
def copyBinaries (s : GenerateSettings) (existingPaths : List FsPath)
    (vegaBinaryPath visorBinaryPath : FsPath) : List FsOp × Except String Unit :=
  let vegavisorDstFilePath := joinP s.VisorHome "visor"
  let version := if s.Mode = StartupMode.StartFromBlock0 then "genesis" else s.MainnetVersion
  let vegaDstFilePath := joinP (joinP s.VisorHome version) "vega"
  let versionDirectory := joinP s.VisorHome version
  let currentDirectory := joinP s.VisorHome "current"
  if currentDirectory ∈ existingPaths then
    ([FsOp.copyFile visorBinaryPath vegavisorDstFilePath,
      FsOp.copyFile vegaBinaryPath vegaDstFilePath],
     Except.error "failed to create symlink: file exists")
  else
    ([FsOp.copyFile visorBinaryPath vegavisorDstFilePath,
      FsOp.copyFile vegaBinaryPath vegaDstFilePath,
      FsOp.symlink versionDirectory currentDirectory],
     Except.ok ())

/-- The paths computed by DataNodeGenerator.prepareVisorHome
(network/mainnet.go): the run-config directory, the run-config.toml path
inside it, and the version string passed to the run-config template. The
directory creation, template rendering (vegacmd.TemplateVisorRunConfig) and
file write are external effects not modelled. -/
def prepareVisorHome (s : GenerateSettings) : FsPath × FsPath × String :=
  let pair :=
    if s.Mode = StartupMode.StartFromBlock0 then
      (joinP s.VisorHome "genesis", "genesis")
    else
      (joinP s.VisorHome s.MainnetVersion, s.MainnetVersion)
  let runConfigDirPath := pair.1
  let version := pair.2
  let runConfigPath := joinP runConfigDirPath "run-config.toml"
  (runConfigDirPath, runConfigPath, version)

/-- One step of DataNodeGenerator.Run, in execution order. removeTempDir
corresponds to the os.RemoveAll(outputDir) cleanup that appears only
commented out in the source (the defer at network/mainnet.go line 132); the
embedding of Run never emits it. -/
inductive RunStep
  | mkdirTemp
  | downloadVega
  | downloadVisor
  | vegaVersionCheck
  | visorVersionCheck
  | initNode
  | prepareVisorHome
  | copyBinaries
  | updateConfigs
  | downloadGenesis
  | removeTempDir
  deriving DecidableEq, Repr

/-- Outcomes of the external effects DataNodeGenerator.Run performs, one per
step: os.MkdirTemp, two github.DownloadArtifact calls, two
utils.ExecuteBinary version probes, then the five generator sub-steps. -/
structure RunEnv where
  mkdirTemp : Except String String
  downloadVega : Except String String
  downloadVisor : Except String String
  vegaVersionCheck : Except String String
  visorVersionCheck : Except String String
  initNode : Except String Unit
  prepareVisorHome : Except String Unit
  copyBinaries : Except String Unit
  updateConfigs : Except String Unit
  downloadGenesis : Except String Unit

/-- DataNodeGenerator.Run (network/mainnet.go): executes the steps strictly
in order, wraps each step's error with the step's context message and
returns immediately on failure. Returns the final result and the trace of
steps attempted, in order. The commented-out RemoveAll cleanup is never
executed, so removeTempDir never appears in the trace. -/
def RunGo (env : RunEnv) : Except String Unit × List RunStep :=
  match env.mkdirTemp with
  | Except.error e => (Except.error ("failed to create temp dir: " ++ e), [RunStep.mkdirTemp])
  | Except.ok _ =>
    match env.downloadVega with
    | Except.error e =>
        (Except.error ("failed to download vega binary: " ++ e),
         [RunStep.mkdirTemp, RunStep.downloadVega])
    | Except.ok _ =>
      match env.downloadVisor with
      | Except.error e =>
          (Except.error ("failed to download visor binary: " ++ e),
           [RunStep.mkdirTemp, RunStep.downloadVega, RunStep.downloadVisor])
      | Except.ok _ =>
        match env.vegaVersionCheck with
        | Except.error e =>
            (Except.error ("failed to check vega version: " ++ e),
             [RunStep.mkdirTemp, RunStep.downloadVega, RunStep.downloadVisor,
              RunStep.vegaVersionCheck])
        | Except.ok _ =>
          match env.visorVersionCheck with
          | Except.error e =>
              (Except.error ("failed to check visor version: " ++ e),
               [RunStep.mkdirTemp, RunStep.downloadVega, RunStep.downloadVisor,
                RunStep.vegaVersionCheck, RunStep.visorVersionCheck])
          | Except.ok _ =>
            match env.initNode with
            | Except.error e =>
                (Except.error ("failed to init vega node: " ++ e),
                 [RunStep.mkdirTemp, RunStep.downloadVega, RunStep.downloadVisor,
                  RunStep.vegaVersionCheck, RunStep.visorVersionCheck, RunStep.initNode])
            | Except.ok _ =>
              match env.prepareVisorHome with
              | Except.error e =>
                  (Except.error ("failed to prepare visor home: " ++ e),
                   [RunStep.mkdirTemp, RunStep.downloadVega, RunStep.downloadVisor,
                    RunStep.vegaVersionCheck, RunStep.visorVersionCheck, RunStep.initNode,
                    RunStep.prepareVisorHome])
              | Except.ok _ =>
                match env.copyBinaries with
                | Except.error e =>
                    (Except.error ("failed to copy binaries to visor home: " ++ e),
                     [RunStep.mkdirTemp, RunStep.downloadVega, RunStep.downloadVisor,
                      RunStep.vegaVersionCheck, RunStep.visorVersionCheck, RunStep.initNode,
                      RunStep.prepareVisorHome, RunStep.copyBinaries])
                | Except.ok _ =>
                  match env.updateConfigs with
                  | Except.error e =>
                      (Except.error ("failed to update config files for the node: " ++ e),
                       [RunStep.mkdirTemp, RunStep.downloadVega, RunStep.downloadVisor,
                        RunStep.vegaVersionCheck, RunStep.visorVersionCheck, RunStep.initNode,
                        RunStep.prepareVisorHome, RunStep.copyBinaries, RunStep.updateConfigs])
                  | Except.ok _ =>
                    match env.downloadGenesis with
                    | Except.error e =>
                        (Except.error ("failed to download genesis: " ++ e),
                         [RunStep.mkdirTemp, RunStep.downloadVega, RunStep.downloadVisor,
                          RunStep.vegaVersionCheck, RunStep.visorVersionCheck, RunStep.initNode,
                          RunStep.prepareVisorHome, RunStep.copyBinaries, RunStep.updateConfigs,
                          RunStep.downloadGenesis])
                    | Except.ok _ =>
                        (Except.ok (),
                         [RunStep.mkdirTemp, RunStep.downloadVega, RunStep.downloadVisor,
                          RunStep.vegaVersionCheck, RunStep.visorVersionCheck, RunStep.initNode,
                          RunStep.prepareVisorHome, RunStep.copyBinaries, RunStep.updateConfigs,
                          RunStep.downloadGenesis])

/-- The ValidateFunc of the PostgreSQL port prompt in AskSQLCredentials
(generator/ui.go): accept exactly when strconv.Atoi succeeds. -/
def portValidateFunc (s : String) : Except String Unit :=
  match atoi s with
  | none => Except.error "port must be numeric"
  | some _ => Except.ok ()

/-- One round of answers the operator types into AskSQLCredentials: the five
credential prompts plus the try-again answer (consumed only when the
connectivity check fails). -/
structure CredRound where
  host : String
  portStr : String
  user : String
  pass : String
  dbName : String
  tryAgain : String
  deriving DecidableEq, Repr

/-- AskSQLCredentials (generator/ui.go), driven by a script of answer rounds.
Prompt loops (ui.Ask with Loop=true) re-ask on invalid input, so a round
whose port or try-again answer fails its validator leaves the function
waiting for more input; with the finite script that is modelled as none, as
is an exhausted script. When the connectivity check checkFunc fails, the
try-again answer decides: "yes" (case-insensitive) restarts the full
collection with the remaining rounds, anything else breaks the loop and the
last-entered credentials are returned (with a nil error in Go). -/
def askSQLCredentials (checkFunc : SQLCredentials → Except String Unit) :
    List CredRound → Option SQLCredentials
  | [] => none
  | r :: rest =>
    match atoi r.portStr with
    | none => none
    | some dbPort =>
      let creds : SQLCredentials :=
        { Host := r.host, Port := dbPort, User := r.user, Pass := r.pass,
          DatabaseName := r.dbName }
      match checkFunc creds with
      | Except.ok _ => some creds
      | Except.error _ =>
        if goToLower r.tryAgain = "yes" ∨ goToLower r.tryAgain = "no" then
          if goToLower r.tryAgain = "yes" then askSQLCredentials checkFunc rest
          else some creds
        else none

/-- The masked password cell printed by printSummary (generator/ui.go):
Pass[0] and Pass[len(Pass)-1] around "***". Indexing an empty string is out
of range in Go (a panic), modelled as none. -/
def maskedPassword (p : String) : Option String :=
  match p.data.head?, p.data.getLast? with
  | some a, some b => some (String.mk [a] ++ "***" ++ String.mk [b])
  | _, _ => none

/-- The (Parameter, Value) rows printSummary (generator/ui.go) adds to its
summary table; none when building the masked password cell panics on an
empty password. -/
def printSummaryRows (settings : GenerateSettings) : Option (List (String × String)) :=
  (maskedPassword settings.SQLCredentials.Pass).map (fun masked =>
    [("Mode",
      if settings.Mode = StartupMode.StartFromBlock0 then "Start from block 0"
      else "Start from Network History"),
     ("Visor Home", String.intercalate "/" settings.VisorHome),
     ("Vega Home", String.intercalate "/" settings.VegaHome),
     ("Tendermint Home", String.intercalate "/" settings.TendermintHome),
     ("SQL Host", settings.SQLCredentials.Host),
     ("SQL Port", toString settings.SQLCredentials.Port),
     ("SQL User", settings.SQLCredentials.User),
     ("SQL Password", masked),
     ("SQL Database Name", settings.SQLCredentials.DatabaseName),
     ("Vega Version", settings.MainnetVersion),
     ("Vega Chain ID", settings.MainnetChainId)])

/-- Sample SQL credentials used to instantiate the theorems below. -/
def sampleCredentials : SQLCredentials :=
  { Host := "localhost", Port := 5432, User := "vega", Pass := "secret",
    DatabaseName := "vegadb" }

/-- Sample network-history snapshot. -/
def sampleSnapshot : Snapshot := { BlockHeight := "1000", BlockHash := "ABC" }

/-- Small network config with repository "org/proj", used to instantiate the
theorems below on concrete inputs. -/
def sampleNetworkConfig : NetworkConfig :=
  { GenesisVersion := "v0.72.14", Repository := "org/proj", GenesisURL := "http://example/genesis.json",
    DataNodesRESTUrls := [], TendermintSeeds := ["seed1@h1:26656", "seed2@h2:26656"],
    TendermintRPCServers := ["rpc1:26657", "rpc2:26657"], BootstrapPeers := ["peer1"] }

/-- Sample settings in network-history mode. -/
def sampleSettingsNH : GenerateSettings :=
  { Mode := StartupMode.StartFromNetworkHistory, VisorHome := ["home", "visor"],
    VegaHome := ["home", "vega"], TendermintHome := ["home", "tm"],
    DataNodeHome := ["home", "dn"], SQLCredentials := sampleCredentials,
    MainnetVersion := "v0.72.14", MainnetChainId := "vega-mainnet-0011",
    LatestSnapshot := sampleSnapshot }

/-- Sample settings in genesis (start-from-block-0) mode. -/
def sampleSettingsGen : GenerateSettings :=
  { sampleSettingsNH with Mode := StartupMode.StartFromBlock0 }

/-- Sample generator in genesis mode over the sample network config. -/
def sampleGenGenesis : DataNodeGenerator :=
  { userSettings := sampleSettingsGen, networkConfig := sampleNetworkConfig }

/-- Sample generator in network-history mode over the sample network config. -/
def sampleGenNH : DataNodeGenerator :=
  { userSettings := sampleSettingsNH, networkConfig := sampleNetworkConfig }

/-- C3 counterexample: with repository "org/proj" on linux/amd64, the
auto-install asset name written by updateConfigs is the hardcoded
"vega-linux-amd64.zip", not "proj-linux-amd64.zip" built from the
repository's name component as the claim states. -/
theorem updateConfigs_assetName_counterexample :
    ((updateConfigs sampleGenGenesis "linux" "amd64").map
      (fun res => mapLookup res.vegavisorConfig "autoInstall.asset.name")) =
      Except.ok (some (ConfigValue.str "vega-linux-amd64.zip")) ∧
    ConfigValue.str "vega-linux-amd64.zip" ≠ ConfigValue.str "proj-linux-amd64.zip" :=
  ⟨rfl, by decide⟩

/-- C3 (amended): whenever updateConfigs succeeds, the auto-install asset
name it writes is the fixed pattern "vega-&lt;os&gt;-&lt;arch&gt;.zip" — the literal
binary name "vega", never the repository's name component — and the
auto-install binary name is "vega". -/
theorem updateConfigs_assetName (gen : DataNodeGenerator) (goos goarch : String)
    (res : UpdateConfigsResult)
    (h : updateConfigs gen goos goarch = Except.ok res) :
    mapLookup res.vegavisorConfig "autoInstall.asset.name" =
      some (ConfigValue.str ("vega-" ++ goos ++ "-" ++ goarch ++ ".zip")) ∧
    mapLookup res.vegavisorConfig "autoInstall.asset.binaryName" =
      some (ConfigValue.str "vega") := by
  unfold updateConfigs at h
  rcases hsplit : goSplit '/' gen.networkConfig.Repository with _ | ⟨owner, _ | ⟨repoName, tl⟩⟩ <;>
    rw [hsplit] at h <;> simp only [] at h
  · cases h
  · cases h
  · by_cases hm : gen.userSettings.Mode = StartupMode.StartFromNetworkHistory
    · rw [if_pos hm] at h
      by_cases hh : gen.userSettings.LatestSnapshot.BlockHash = ""
      · rw [if_pos hh] at h; cases h
      · rw [if_neg hh] at h
        rcases hat : atoi gen.userSettings.LatestSnapshot.BlockHeight with _ | th <;>
          rw [hat] at h
        · cases h
        · cases h
          simp [mapLookup, vegavisorConfigBase, List.find?]
    · rw [if_neg hm] at h
      cases h
      simp [mapLookup, vegavisorConfigBase, List.find?]

/-- The concrete result of updateConfigs on the sample genesis-mode
generator, for instantiating theorems with hypotheses. -/
def sampleUpdateRes : UpdateConfigsResult :=
  (updateConfigs sampleGenGenesis "linux" "amd64").toOption.getD
    { dataNodeConfig := [], vegaConfig := [], tendermintConfig := [], vegavisorConfig := [] }

/-- C3 witness: the amended theorem instantiated at the sample generator. -/
theorem updateConfigs_assetName_witness :
    mapLookup sampleUpdateRes.vegavisorConfig "autoInstall.asset.name" =
      some (ConfigValue.str ("vega-" ++ "linux" ++ "-" ++ "amd64" ++ ".zip")) :=
  (updateConfigs_assetName sampleGenGenesis "linux" "amd64" sampleUpdateRes rfl).1

/-- C4 counterexample: when an entry named "current" already exists in the
visor home, the os.Symlink call in copyBinaries fails and the step returns
an error instead of atomically replacing the link. -/
theorem copyBinaries_current_counterexample :
    (copyBinaries sampleSettingsGen [["home", "visor", "current"]]
        ["staging", "vega"] ["staging", "visor"]).2 =
      Except.error "failed to create symlink: file exists" ∧
    (copyBinaries sampleSettingsGen [["home", "visor", "current"]]
        ["staging", "vega"] ["staging", "visor"]).2 ≠ Except.ok () := by
  constructor
  · rfl
  · exact fun h => Except.noConfusion h

/-- C4 (amended): copyBinaries ends by creating the "current" symlink to the
versioned subdirectory when no entry named "current" exists; when such an
entry already exists, os.Symlink fails and the step returns an error — there
is no atomic replacement. -/
theorem copyBinaries_current_symlink (s : GenerateSettings) (existingPaths : List FsPath)
    (vegaBinaryPath visorBinaryPath : FsPath) :
    (joinP s.VisorHome "current" ∉ existingPaths →
      (copyBinaries s existingPaths vegaBinaryPath visorBinaryPath).2 = Except.ok () ∧
      (copyBinaries s existingPaths vegaBinaryPath visorBinaryPath).1.getLast? =
        some (FsOp.symlink
          (joinP s.VisorHome
            (if s.Mode = StartupMode.StartFromBlock0 then "genesis" else s.MainnetVersion))
          (joinP s.VisorHome "current"))) ∧
    (joinP s.VisorHome "current" ∈ existingPaths →
      (copyBinaries s existingPaths vegaBinaryPath visorBinaryPath).2 =
        Except.error "failed to create symlink: file exists") := by
  constructor
  · intro hnot
    rw [copyBinaries, if_neg hnot]
    constructor
    · rfl
    · simp
  · intro hmem
    rw [copyBinaries, if_pos hmem]

/-- C4 witness: the amended theorem instantiated with an empty filesystem. -/
theorem copyBinaries_current_symlink_witness :
    (copyBinaries sampleSettingsGen [] ["staging", "vega"] ["staging", "visor"]).2 =
      Except.ok () :=
  ((copyBinaries_current_symlink sampleSettingsGen [] ["staging", "vega"]
    ["staging", "visor"]).1 (by decide)).1

/-- A RunEnv in which every external step succeeds. -/
def sampleRunEnvOk : RunEnv :=
  { mkdirTemp := Except.ok "/tmp/vega-assistant123"
    downloadVega := Except.ok "/tmp/vega-assistant123/vega"
    downloadVisor := Except.ok "/tmp/vega-assistant123/visor"
    vegaVersionCheck := Except.ok "v0.72.14"
    visorVersionCheck := Except.ok "v0.72.14"
    initNode := Except.ok ()
    prepareVisorHome := Except.ok ()
    copyBinaries := Except.ok ()
    updateConfigs := Except.ok ()
    downloadGenesis := Except.ok () }

/-- C5 counterexample: on a run in which every step succeeds, Run returns
success and its trace contains no removal of the temporary staging
directory — the cleanup the claim promises never happens (the RemoveAll
defer is commented out in the source). -/
theorem run_cleanup_counterexample :
    (RunGo sampleRunEnvOk).1 = Except.ok () ∧
    RunStep.removeTempDir ∉ (RunGo sampleRunEnvOk).2 := by
  constructor
  · rfl
  · decide

/-- C5 (amended): for every run of the pipeline, successful or aborted at any
step, the temporary staging directory is never removed: the pipeline performs
no cleanup at all (the RemoveAll call exists only commented out). -/
theorem run_never_removes_staging (env : RunEnv) :
    RunStep.removeTempDir ∉ (RunGo env).2 := by
  unfold RunGo
  repeat' split
  all_goals simp

/-- C5 witness: the amended theorem instantiated at the all-success
environment. -/
theorem run_never_removes_staging_witness :
    RunStep.removeTempDir ∉ (RunGo sampleRunEnvOk).2 :=
  run_never_removes_staging sampleRunEnvOk

/-- C6 counterexample: the string "70000" passes the port prompt's validator
(strconv.Atoi succeeds) although its integer value 70000 lies outside
1–65535, so out-of-range ports are not rejected. -/
theorem portValidateFunc_counterexample :
    portValidateFunc "70000" = Except.ok () ∧
    atoi "70000" = some 70000 ∧
    ¬((1 : Int) ≤ 70000 ∧ (70000 : Int) ≤ 65535) := by
  refine ⟨rfl, by decide, by decide⟩

/-- C6 (amended): the port prompt's validator accepts a string exactly when
strconv.Atoi parses it as an integer; it imposes no 1–65535 range check, so
any string parsing as an integer — in range or not — is accepted. -/
theorem portValidateFunc_accepts_iff_numeric (s : String) :
    portValidateFunc s = Except.ok () ↔ ∃ n, atoi s = some n := by
  unfold portValidateFunc
  cases h : atoi s <;> simp

/-- C6 witness: the amended theorem applied at "5432". -/
theorem portValidateFunc_accepts_iff_numeric_witness :
    portValidateFunc "5432" = Except.ok () :=
  (portValidateFunc_accepts_iff_numeric "5432").mpr ⟨5432, by decide⟩

/-- Reduction of updateConfigs in network-history mode with a non-empty
snapshot and a parseable block height. -/
theorem updateConfigs_eq_networkHistory (gen : DataNodeGenerator) (goos goarch : String)
    (owner repoName : String) (tl : List String) (th : Int)
    (hrepo : goSplit '/' gen.networkConfig.Repository = owner :: repoName :: tl)
    (hm : gen.userSettings.Mode = StartupMode.StartFromNetworkHistory)
    (hh : gen.userSettings.LatestSnapshot.BlockHash ≠ "")
    (hat : atoi gen.userSettings.LatestSnapshot.BlockHeight = some th) :
    updateConfigs gen goos goarch = Except.ok
      { dataNodeConfig := mapSet (dataNodeConfigBase gen.userSettings gen.networkConfig)
          "AutoInitialiseFromNetworkHistory" (ConfigValue.bool true)
        vegaConfig := vegaConfigBase
        tendermintConfig :=
          mapSet
            (mapSet
              (mapSet (tendermintConfigBase gen.networkConfig)
                "statesync.enable" (ConfigValue.bool true))
              "statesync.trust_height" (ConfigValue.int th))
            "statesync.trust_hash" (ConfigValue.str gen.userSettings.LatestSnapshot.BlockHash)
        vegavisorConfig := vegavisorConfigBase owner repoName goos goarch } := by
  unfold updateConfigs
  rw [hrepo]
  simp only []
  rw [if_pos hm, if_neg hh, hat]

/-- Reduction of updateConfigs in genesis (start-from-block-0) mode. -/
theorem updateConfigs_eq_genesis (gen : DataNodeGenerator) (goos goarch : String)
    (owner repoName : String) (tl : List String)
    (hrepo : goSplit '/' gen.networkConfig.Repository = owner :: repoName :: tl)
    (hm : gen.userSettings.Mode = StartupMode.StartFromBlock0) :
    updateConfigs gen goos goarch = Except.ok
      { dataNodeConfig := dataNodeConfigBase gen.userSettings gen.networkConfig
        vegaConfig := vegaConfigBase
        tendermintConfig := tendermintConfigBase gen.networkConfig
        vegavisorConfig := vegavisorConfigBase owner repoName goos goarch } := by
  have hne : gen.userSettings.Mode ≠ StartupMode.StartFromNetworkHistory := by
    rw [hm]; intro hc; cases hc
  unfold updateConfigs
  rw [hrepo]
  simp only []
  rw [if_neg hne]

/-- C1: in network-history mode with a non-empty snapshot whose block height
parses as an integer, updateConfigs writes statesync.enable = true,
statesync.trust_height = the parsed integer (an integer value, not a
string), and statesync.trust_hash = the snapshot's block hash into the
tendermint (consensus-layer) key set; in genesis mode it writes
statesync.enable = false. -/
theorem updateConfigs_statesync (gen : DataNodeGenerator) (goos goarch : String)
    (owner repoName : String) (tl : List String)
    (hrepo : goSplit '/' gen.networkConfig.Repository = owner :: repoName :: tl) :
    (∀ th : Int, gen.userSettings.Mode = StartupMode.StartFromNetworkHistory →
      gen.userSettings.LatestSnapshot.BlockHash ≠ "" →
      atoi gen.userSettings.LatestSnapshot.BlockHeight = some th →
      ∃ res, updateConfigs gen goos goarch = Except.ok res ∧
        mapLookup res.tendermintConfig "statesync.enable" = some (ConfigValue.bool true) ∧
        mapLookup res.tendermintConfig "statesync.trust_height" = some (ConfigValue.int th) ∧
        mapLookup res.tendermintConfig "statesync.trust_hash" =
          some (ConfigValue.str gen.userSettings.LatestSnapshot.BlockHash)) ∧
    (gen.userSettings.Mode = StartupMode.StartFromBlock0 →
      ∃ res, updateConfigs gen goos goarch = Except.ok res ∧
        mapLookup res.tendermintConfig "statesync.enable" = some (ConfigValue.bool false)) := by
  constructor
  · intro th hm hh hat
    refine ⟨_, updateConfigs_eq_networkHistory gen goos goarch owner repoName tl th hrepo hm hh hat,
      ?_, ?_, ?_⟩ <;>
      simp [tendermintConfigBase, mapSet, mapLookup, List.find?, List.any]
  · intro hm
    refine ⟨_, updateConfigs_eq_genesis gen goos goarch owner repoName tl hrepo hm, ?_⟩
    simp [tendermintConfigBase, mapLookup, List.find?]

/-- The concrete result of updateConfigs on the sample network-history
generator. -/
def sampleUpdateResNH : UpdateConfigsResult :=
  (updateConfigs sampleGenNH "linux" "amd64").toOption.getD
    { dataNodeConfig := [], vegaConfig := [], tendermintConfig := [], vegavisorConfig := [] }

/-- C1 witness: the theorem instantiated at the sample network-history
generator (snapshot height "1000", hash "ABC"). -/
theorem updateConfigs_statesync_witness :
    mapLookup sampleUpdateResNH.tendermintConfig "statesync.enable" =
      some (ConfigValue.bool true) ∧
    mapLookup sampleUpdateResNH.tendermintConfig "statesync.trust_height" =
      some (ConfigValue.int 1000) ∧
    mapLookup sampleUpdateResNH.tendermintConfig "statesync.trust_hash" =
      some (ConfigValue.str "ABC") := by
  obtain ⟨res, hres, h1, h2, h3⟩ :=
    (updateConfigs_statesync sampleGenNH "linux" "amd64" "org" "proj" [] (by decide)).1
      1000 rfl (by decide) (by decide)
  have heq : sampleUpdateResNH = res := by
    rw [sampleUpdateResNH, hres]; rfl
  rw [heq]
  exact ⟨h1, h2, h3⟩

/-- C2: in genesis (start-from-block-0) mode, prepareVisorHome places the
run-config directory and run-config.toml under the visor-home subdirectory
literally named "genesis" — not under one named after the version string —
and copyBinaries copies the vega binary into that same "genesis"
subdirectory; in network-history mode both use the subdirectory named after
the version string. -/
theorem genesis_directory_layout (s : GenerateSettings) (existingPaths : List FsPath)
    (vegaBinaryPath visorBinaryPath : FsPath) :
    (s.Mode = StartupMode.StartFromBlock0 →
      (prepareVisorHome s).1 = s.VisorHome ++ ["genesis"] ∧
      (prepareVisorHome s).2.1 = s.VisorHome ++ ["genesis", "run-config.toml"] ∧
      FsOp.copyFile vegaBinaryPath (s.VisorHome ++ ["genesis", "vega"]) ∈
        (copyBinaries s existingPaths vegaBinaryPath visorBinaryPath).1 ∧
      (s.MainnetVersion ≠ "genesis" →
        (prepareVisorHome s).1 ≠ s.VisorHome ++ [s.MainnetVersion] ∧
        FsOp.copyFile vegaBinaryPath (s.VisorHome ++ [s.MainnetVersion, "vega"]) ∉
          (copyBinaries s existingPaths vegaBinaryPath visorBinaryPath).1)) ∧
    (s.Mode = StartupMode.StartFromNetworkHistory →
      (prepareVisorHome s).1 = s.VisorHome ++ [s.MainnetVersion] ∧
      (prepareVisorHome s).2.1 = s.VisorHome ++ [s.MainnetVersion, "run-config.toml"] ∧
      FsOp.copyFile vegaBinaryPath (s.VisorHome ++ [s.MainnetVersion, "vega"]) ∈
        (copyBinaries s existingPaths vegaBinaryPath visorBinaryPath).1) := by
  constructor
  · intro hm
    refine ⟨?_, ?_, ?_, ?_⟩
    · simp [prepareVisorHome, joinP, hm]
    · simp [prepareVisorHome, joinP, hm]
    · by_cases hcur : s.VisorHome ++ ["current"] ∈ existingPaths <;>
        simp [copyBinaries, joinP, hm, hcur]
    · intro hv
      constructor
      · simp [prepareVisorHome, joinP, hm]
        intro hc
        exact hv hc.symm
      · by_cases hcur : s.VisorHome ++ ["current"] ∈ existingPaths <;>
          simp [copyBinaries, joinP, hm, hcur, hv]
  · intro hm
    have hne : s.Mode ≠ StartupMode.StartFromBlock0 := by
      rw [hm]; intro hc; cases hc
    refine ⟨?_, ?_, ?_⟩
    · simp [prepareVisorHome, joinP, hne]
    · simp [prepareVisorHome, joinP, hne]
    · by_cases hcur : s.VisorHome ++ ["current"] ∈ existingPaths <;>
        simp [copyBinaries, joinP, hne, hcur]

/-- C2 witness: the theorem instantiated at the sample genesis-mode settings
(version "v0.72.14"). -/
theorem genesis_directory_layout_witness :
    (prepareVisorHome sampleSettingsGen).1 = sampleSettingsGen.VisorHome ++ ["genesis"] ∧
    FsOp.copyFile ["staging", "vega"] (sampleSettingsGen.VisorHome ++ ["genesis", "vega"]) ∈
      (copyBinaries sampleSettingsGen [] ["staging", "vega"] ["staging", "visor"]).1 ∧
    (prepareVisorHome sampleSettingsGen).1 ≠
      sampleSettingsGen.VisorHome ++ [sampleSettingsGen.MainnetVersion] := by
  obtain ⟨h1, _, h3, h4⟩ :=
    (genesis_directory_layout sampleSettingsGen [] ["staging", "vega"] ["staging", "visor"]).1 rfl
  exact ⟨h1, h3, (h4 (by decide)).1⟩

/-- C8 counterexample: in genesis (start-from-block-0) mode the tendermint
key set written by updateConfigs contains "statesync.rpc_servers" — the key
the claim says is written only in network-history mode — so the genesis key
set is not exactly the four keys the claim lists. -/
theorem tendermint_keys_counterexample :
    ((updateConfigs sampleGenGenesis "linux" "amd64").map
      (fun res => res.tendermintConfig.map Prod.fst)) =
      Except.ok ["p2p.seeds", "pex", "statesync.enable", "statesync.rpc_servers",
        "statesync.trust_period"] ∧
    "statesync.rpc_servers" ∉
      ["p2p.seeds", "pex", "statesync.enable", "statesync.trust_period"] := by
  refine ⟨rfl, by decide⟩

/-- C8 (amended): in genesis mode the tendermint key set written by
updateConfigs is exactly (peer seeds, peer exchange, state-sync enabled =
false, rpc servers, trust period) — the rpc servers key is written
unconditionally in both modes — while trust height and trust hash are
written only in network-history mode. -/
theorem tendermint_keys (gen : DataNodeGenerator) (goos goarch : String)
    (owner repoName : String) (tl : List String)
    (hrepo : goSplit '/' gen.networkConfig.Repository = owner :: repoName :: tl) :
    (gen.userSettings.Mode = StartupMode.StartFromBlock0 →
      ∃ res, updateConfigs gen goos goarch = Except.ok res ∧
        res.tendermintConfig.map Prod.fst =
          ["p2p.seeds", "pex", "statesync.enable", "statesync.rpc_servers",
           "statesync.trust_period"] ∧
        mapLookup res.tendermintConfig "statesync.enable" = some (ConfigValue.bool false) ∧
        mapLookup res.tendermintConfig "statesync.trust_height" = none ∧
        mapLookup res.tendermintConfig "statesync.trust_hash" = none) ∧
    (∀ th : Int, gen.userSettings.Mode = StartupMode.StartFromNetworkHistory →
      gen.userSettings.LatestSnapshot.BlockHash ≠ "" →
      atoi gen.userSettings.LatestSnapshot.BlockHeight = some th →
      ∃ res, updateConfigs gen goos goarch = Except.ok res ∧
        res.tendermintConfig.map Prod.fst =
          ["p2p.seeds", "pex", "statesync.enable", "statesync.rpc_servers",
           "statesync.trust_period", "statesync.trust_height", "statesync.trust_hash"]) := by
  constructor
  · intro hm
    refine ⟨_, updateConfigs_eq_genesis gen goos goarch owner repoName tl hrepo hm, ?_, ?_, ?_, ?_⟩ <;>
      simp [tendermintConfigBase, mapLookup, List.find?]
  · intro th hm hh hat
    refine ⟨_, updateConfigs_eq_networkHistory gen goos goarch owner repoName tl th hrepo hm hh hat, ?_⟩
    simp [tendermintConfigBase, mapSet, List.any]

/-- C8 witness: the amended theorem instantiated at the sample genesis-mode
generator. -/
theorem tendermint_keys_witness :
    mapLookup sampleUpdateRes.tendermintConfig "statesync.enable" =
      some (ConfigValue.bool false) ∧
    mapLookup sampleUpdateRes.tendermintConfig "statesync.trust_height" = none ∧
    mapLookup sampleUpdateRes.tendermintConfig "statesync.trust_hash" = none := by
  obtain ⟨res, hres, _, h2, h3, h4⟩ :=
    (tendermint_keys sampleGenGenesis "linux" "amd64" "org" "proj" [] (by decide)).1 rfl
  have heq : sampleUpdateRes = res := by
    rw [sampleUpdateRes, hres]; rfl
  rw [heq]
  exact ⟨h2, h3, h4⟩

/-- C7: when the connectivity check fails on every invocation, a try-again
answer of "No" makes AskSQLCredentials return the last-entered credentials
(a successful, nil-error return, modelled as some); a try-again answer of
"Yes" repeats the full credential collection from the beginning. -/
theorem askSQLCredentials_retry (checkFunc : SQLCredentials → Except String Unit)
    (r : CredRound) (rest : List CredRound) (dbPort : Int)
    (hport : atoi r.portStr = some dbPort)
    (hfail : ∀ c, ∃ e, checkFunc c = Except.error e) :
    (goToLower r.tryAgain = "no" →
      askSQLCredentials checkFunc (r :: rest) =
        some { Host := r.host, Port := dbPort, User := r.user, Pass := r.pass,
               DatabaseName := r.dbName }) ∧
    (goToLower r.tryAgain = "yes" →
      askSQLCredentials checkFunc (r :: rest) = askSQLCredentials checkFunc rest) := by
  obtain ⟨e, he⟩ := hfail ⟨r.host, dbPort, r.user, r.pass, r.dbName⟩
  constructor
  · intro hno
    simp [askSQLCredentials, hport, he, hno]
  · intro hyes
    simp [askSQLCredentials, hport, he, hyes]

/-- A connectivity check that fails on every invocation. -/
def alwaysFailCheck : SQLCredentials → Except String Unit :=
  fun _ => Except.error "connection refused"

/-- A credentials round answering "No" to the try-again prompt. -/
def sampleRoundNo : CredRound :=
  { host := "localhost", portStr := "5432", user := "vega", pass := "secret",
    dbName := "vegadb", tryAgain := "No" }

/-- C7 witness: with an always-failing check and the answer "No",
AskSQLCredentials returns the entered credentials. -/
theorem askSQLCredentials_retry_witness :
    askSQLCredentials alwaysFailCheck [sampleRoundNo] =
      some { Host := "localhost", Port := 5432, User := "vega", Pass := "secret",
             DatabaseName := "vegadb" } :=
  (askSQLCredentials_retry alwaysFailCheck sampleRoundNo [] 5432 (by decide)
    (fun _ => ⟨"connection refused", rfl⟩)).1 (by decide)

/-- C9: each step of Run that fails makes Run return immediately with the
step's error wrapped in the step-identifying context message, and the trace
stops at the failing step — no later step is executed. -/
theorem run_step_failure_aborts (env : RunEnv) (e : String) :
    (env.mkdirTemp = Except.error e →
      RunGo env = (Except.error ("failed to create temp dir: " ++ e),
        [RunStep.mkdirTemp])) ∧
    ((∃ a, env.mkdirTemp = Except.ok a) → env.downloadVega = Except.error e →
      RunGo env = (Except.error ("failed to download vega binary: " ++ e),
        [RunStep.mkdirTemp, RunStep.downloadVega])) ∧
    ((∃ a, env.mkdirTemp = Except.ok a) → (∃ a, env.downloadVega = Except.ok a) →
      env.downloadVisor = Except.error e →
      RunGo env = (Except.error ("failed to download visor binary: " ++ e),
        [RunStep.mkdirTemp, RunStep.downloadVega, RunStep.downloadVisor])) ∧
    ((∃ a, env.mkdirTemp = Except.ok a) → (∃ a, env.downloadVega = Except.ok a) →
      (∃ a, env.downloadVisor = Except.ok a) → env.vegaVersionCheck = Except.error e →
      RunGo env = (Except.error ("failed to check vega version: " ++ e),
        [RunStep.mkdirTemp, RunStep.downloadVega, RunStep.downloadVisor,
         RunStep.vegaVersionCheck])) ∧
    ((∃ a, env.mkdirTemp = Except.ok a) → (∃ a, env.downloadVega = Except.ok a) →
      (∃ a, env.downloadVisor = Except.ok a) → (∃ a, env.vegaVersionCheck = Except.ok a) →
      env.visorVersionCheck = Except.error e →
      RunGo env = (Except.error ("failed to check visor version: " ++ e),
        [RunStep.mkdirTemp, RunStep.downloadVega, RunStep.downloadVisor,
         RunStep.vegaVersionCheck, RunStep.visorVersionCheck])) ∧
    ((∃ a, env.mkdirTemp = Except.ok a) → (∃ a, env.downloadVega = Except.ok a) →
      (∃ a, env.downloadVisor = Except.ok a) → (∃ a, env.vegaVersionCheck = Except.ok a) →
      (∃ a, env.visorVersionCheck = Except.ok a) → env.initNode = Except.error e →
      RunGo env = (Except.error ("failed to init vega node: " ++ e),
        [RunStep.mkdirTemp, RunStep.downloadVega, RunStep.downloadVisor,
         RunStep.vegaVersionCheck, RunStep.visorVersionCheck, RunStep.initNode])) ∧
    ((∃ a, env.mkdirTemp = Except.ok a) → (∃ a, env.downloadVega = Except.ok a) →
      (∃ a, env.downloadVisor = Except.ok a) → (∃ a, env.vegaVersionCheck = Except.ok a) →
      (∃ a, env.visorVersionCheck = Except.ok a) → env.initNode = Except.ok () →
      env.prepareVisorHome = Except.error e →
      RunGo env = (Except.error ("failed to prepare visor home: " ++ e),
        [RunStep.mkdirTemp, RunStep.downloadVega, RunStep.downloadVisor,
         RunStep.vegaVersionCheck, RunStep.visorVersionCheck, RunStep.initNode,
         RunStep.prepareVisorHome])) ∧
    ((∃ a, env.mkdirTemp = Except.ok a) → (∃ a, env.downloadVega = Except.ok a) →
      (∃ a, env.downloadVisor = Except.ok a) → (∃ a, env.vegaVersionCheck = Except.ok a) →
      (∃ a, env.visorVersionCheck = Except.ok a) → env.initNode = Except.ok () →
      env.prepareVisorHome = Except.ok () → env.copyBinaries = Except.error e →
      RunGo env = (Except.error ("failed to copy binaries to visor home: " ++ e),
        [RunStep.mkdirTemp, RunStep.downloadVega, RunStep.downloadVisor,
         RunStep.vegaVersionCheck, RunStep.visorVersionCheck, RunStep.initNode,
         RunStep.prepareVisorHome, RunStep.copyBinaries])) ∧
    ((∃ a, env.mkdirTemp = Except.ok a) → (∃ a, env.downloadVega = Except.ok a) →
      (∃ a, env.downloadVisor = Except.ok a) → (∃ a, env.vegaVersionCheck = Except.ok a) →
      (∃ a, env.visorVersionCheck = Except.ok a) → env.initNode = Except.ok () →
      env.prepareVisorHome = Except.ok () → env.copyBinaries = Except.ok () →
      env.updateConfigs = Except.error e →
      RunGo env = (Except.error ("failed to update config files for the node: " ++ e),
        [RunStep.mkdirTemp, RunStep.downloadVega, RunStep.downloadVisor,
         RunStep.vegaVersionCheck, RunStep.visorVersionCheck, RunStep.initNode,
         RunStep.prepareVisorHome, RunStep.copyBinaries, RunStep.updateConfigs])) ∧
    ((∃ a, env.mkdirTemp = Except.ok a) → (∃ a, env.downloadVega = Except.ok a) →
      (∃ a, env.downloadVisor = Except.ok a) → (∃ a, env.vegaVersionCheck = Except.ok a) →
      (∃ a, env.visorVersionCheck = Except.ok a) → env.initNode = Except.ok () →
      env.prepareVisorHome = Except.ok () → env.copyBinaries = Except.ok () →
      env.updateConfigs = Except.ok () → env.downloadGenesis = Except.error e →
      RunGo env = (Except.error ("failed to download genesis: " ++ e),
        [RunStep.mkdirTemp, RunStep.downloadVega, RunStep.downloadVisor,
         RunStep.vegaVersionCheck, RunStep.visorVersionCheck, RunStep.initNode,
         RunStep.prepareVisorHome, RunStep.copyBinaries, RunStep.updateConfigs,
         RunStep.downloadGenesis])) := by
  refine ⟨?_, ?_, ?_, ?_, ?_, ?_, ?_, ?_, ?_, ?_⟩
  · intro h0
    simp [RunGo, h0]
  · rintro ⟨a1, h1⟩ h0
    simp [RunGo, h1, h0]
  · rintro ⟨a1, h1⟩ ⟨a2, h2⟩ h0
    simp [RunGo, h1, h2, h0]
  · rintro ⟨a1, h1⟩ ⟨a2, h2⟩ ⟨a3, h3⟩ h0
    simp [RunGo, h1, h2, h3, h0]
  · rintro ⟨a1, h1⟩ ⟨a2, h2⟩ ⟨a3, h3⟩ ⟨a4, h4⟩ h0
    simp [RunGo, h1, h2, h3, h4, h0]
  · rintro ⟨a1, h1⟩ ⟨a2, h2⟩ ⟨a3, h3⟩ ⟨a4, h4⟩ ⟨a5, h5⟩ h0
    simp [RunGo, h1, h2, h3, h4, h5, h0]
  · rintro ⟨a1, h1⟩ ⟨a2, h2⟩ ⟨a3, h3⟩ ⟨a4, h4⟩ ⟨a5, h5⟩ h6 h0
    simp [RunGo, h1, h2, h3, h4, h5, h6, h0]
  · rintro ⟨a1, h1⟩ ⟨a2, h2⟩ ⟨a3, h3⟩ ⟨a4, h4⟩ ⟨a5, h5⟩ h6 h7 h0
    simp [RunGo, h1, h2, h3, h4, h5, h6, h7, h0]
  · rintro ⟨a1, h1⟩ ⟨a2, h2⟩ ⟨a3, h3⟩ ⟨a4, h4⟩ ⟨a5, h5⟩ h6 h7 h8 h0
    simp [RunGo, h1, h2, h3, h4, h5, h6, h7, h8, h0]
  · rintro ⟨a1, h1⟩ ⟨a2, h2⟩ ⟨a3, h3⟩ ⟨a4, h4⟩ ⟨a5, h5⟩ h6 h7 h8 h9 h0
    simp [RunGo, h1, h2, h3, h4, h5, h6, h7, h8, h9, h0]

/-- A run environment failing at the vega-binary download step. -/
def sampleRunEnvFailVega : RunEnv :=
  { sampleRunEnvOk with downloadVega := Except.error "404 not found" }

/-- C9 witness: a run whose vega download fails aborts right there with the
wrapped error, executing no later step. -/
theorem run_step_failure_aborts_witness :
    RunGo sampleRunEnvFailVega =
      (Except.error ("failed to download vega binary: " ++ "404 not found"),
       [RunStep.mkdirTemp, RunStep.downloadVega]) :=
  (run_step_failure_aborts sampleRunEnvFailVega "404 not found").2.1
    ⟨"/tmp/vega-assistant123", rfl⟩ rfl

/-- C10: printSummary is only safe for a non-empty password: with an empty
password the first/last-character indexing is out of range (a Go panic,
modelled as none); with a non-empty password the summary row masks the
password to exactly its first and last characters around "***", and the
mask depends on nothing of the password but those two characters. -/
theorem printSummary_password_mask (s : GenerateSettings) :
    (s.SQLCredentials.Pass = "" → printSummaryRows s = none) ∧
    (∀ a b : Char, s.SQLCredentials.Pass.data.head? = some a →
      s.SQLCredentials.Pass.data.getLast? = some b →
      ∃ rows, printSummaryRows s = some rows ∧
        ("SQL Password", String.mk [a] ++ "***" ++ String.mk [b]) ∈ rows) ∧
    (∀ p q : String, p.data.head? = q.data.head? → p.data.getLast? = q.data.getLast? →
      maskedPassword p = maskedPassword q) := by
  refine ⟨?_, ?_, ?_⟩
  · intro h
    simp [printSummaryRows, maskedPassword, h]
  · intro a b ha hb
    have hmask : maskedPassword s.SQLCredentials.Pass =
        some (String.mk [a] ++ "***" ++ String.mk [b]) := by
      unfold maskedPassword
      rw [ha, hb]
    unfold printSummaryRows
    rw [hmask]
    exact ⟨_, rfl, by simp⟩
  · intro p q hh hl
    unfold maskedPassword
    rw [hh, hl]

/-- Sample settings whose SQL password is empty. -/
def sampleSettingsEmptyPass : GenerateSettings :=
  { sampleSettingsNH with
    SQLCredentials := { sampleCredentials with Pass := "" } }

/-- C10 witness: with an empty password the summary rendering hits the
out-of-range indexing. -/
theorem printSummary_password_mask_witness :
    printSummaryRows sampleSettingsEmptyPass = none :=
  (printSummary_password_mask sampleSettingsEmptyPass).1 rfl
